import Mathlib

/-!
Verification of the Graphite Quest bot command handlers (bot.py).

The handlers are embedded shallowly: the database (Neon/PostgreSQL tables
`quests` and `quest_claims`) becomes an explicit `DB` state, each slash
command becomes a function from the state (plus its parameters) to the
reply text, the successor state and the list of store operations it issued.
The `sql.SQL` queries of bot.py are embedded by their effect on the table
contents; `ORDER BY created_at DESC` carries no secondary sort key in the
source, so the row order returned for tied timestamps is modelled as a
nondeterministic choice among the permutations sorted by `created_at`.
The `/quest suggest` post-processing works on Python strings, which are
sequences of code points; it is embedded over `List Char` with faithful
models of the Python primitives (`split`, `join`, `endswith`, `rsplit`,
`strip`, `replace`).
-/

namespace GraphiteQuest

/-- A row of the `quests` table: `id` is the store-generated key,
`created_at` the store-generated timestamp (modelled as a `Nat`). -/
structure Quest where
  id : Nat
  title : String
  description : String
  creator_id : String
  points : Int
  created_at : Nat
  deriving DecidableEq

/-- A row of the `quest_claims` table. -/
structure ClaimRow where
  id : Nat
  quest_id : Nat
  user_id : String
  deriving DecidableEq

/-- The persisted state: both tables plus the generated-key counters. -/
structure DB where
  quests : List Quest
  claims : List ClaimRow
  next_quest_id : Nat
  next_claim_id : Nat
  deriving DecidableEq

/-- The empty database, before any command ran. -/
def emptyDB : DB := ⟨[], [], 0, 0⟩

/-- Mutating statements a handler can send to the store.  Read-only
statements are not traced; the claims only constrain writes. -/
inductive StoreOp where
  | insertQuest : String → String → String → Int → StoreOp
  | insertClaim : Nat → String → StoreOp
  deriving DecidableEq

/-- The validation reply of `quest_create` for an out-of-range `points`. -/
def msgPointsInvalid : String := "Woof! Points must be between 1 and 1000. Try again!"

/-- Handler of `/quest create` (bot.py `quest_create`): validates the
points range, then inserts the quest and reports the generated id.
Returns (reply, new state, store writes). -/
def quest_create (db : DB) (now : Nat) (title descr : String) (points : Int)
    (uid : String) : String × DB × List StoreOp :=
  if points < 1 ∨ points > 1000 then
    (msgPointsInvalid, db, [])
  else
    let qid := db.next_quest_id
    ("Woof! Quest created by " ++ uid ++ ", powered by Graphite!\n**" ++ title ++
       "** (ID: " ++ toString qid ++ ")\n" ++ descr ++ "\nReward: " ++
       toString points ++ " points",
     { db with
        quests := db.quests ++ [⟨qid, title, descr, uid, points, now⟩],
        next_quest_id := qid + 1 },
     [StoreOp.insertQuest title descr uid points])

/-- `SELECT title, creator_id FROM quests WHERE id = %s` of `quest_claim`. -/
def findQuest (db : DB) (qid : Nat) : Option Quest :=
  db.quests.find? (fun q => q.id == qid)

/-- `SELECT id FROM quest_claims WHERE quest_id = %s AND user_id = %s`,
reduced to whether a row exists. -/
def hasClaim (db : DB) (qid : Nat) (uid : String) : Bool :=
  db.claims.any (fun c => c.quest_id == qid && c.user_id == uid)

/-- The `quest_claim` reply when the quest does not exist. -/
def msgQuestNotFound : String := "Woof! Quest not found. Check the ID and try again!"

/-- The `quest_claim` reply when the claimant created the quest. -/
def msgSelfClaim : String := "Woof! You can’t claim your own quest, silly!"

/-- The `quest_claim` reply when the pair already has a claim row. -/
def msgDuplicateClaim (title : String) : String :=
  "Woof! You’ve already claimed **" ++ title ++ "**. Find another quest!"

/-- Handler of `/quest claim` (bot.py `quest_claim`): looks the quest up,
rejects a self-claim, rejects a duplicate, otherwise inserts the claim row.
Returns (reply, new state, store writes). -/
def quest_claim (db : DB) (qid : Nat) (uid : String) : String × DB × List StoreOp :=
  match findQuest db qid with
  | none => (msgQuestNotFound, db, [])
  | some q =>
    if q.creator_id == uid then
      (msgSelfClaim, db, [])
    else if hasClaim db qid uid then
      (msgDuplicateClaim q.title, db, [])
    else
      ("Woof! You’ve claimed **" ++ q.title ++ "**, " ++ uid ++
         "! Good luck on your quest!",
       { db with
          claims := db.claims ++ [⟨db.next_claim_id, qid, uid⟩],
          next_claim_id := db.next_claim_id + 1 },
       [StoreOp.insertClaim qid uid])

/-- The read phase of `quest_claim`: all three checks against a snapshot of
the store, `true` when the handler will go on to insert.  Together with
`claimInsert` this decomposes the handler for interleaving analysis. -/
def claimCheck (db : DB) (qid : Nat) (uid : String) : Bool :=
  match findQuest db qid with
  | none => false
  | some q => !(q.creator_id == uid) && !(hasClaim db qid uid)

/-- The write phase of `quest_claim`: the unconditional
`INSERT INTO quest_claims` (the schema the handler relies on has no
uniqueness constraint it could trip over). -/
def claimInsert (db : DB) (qid : Nat) (uid : String) : DB :=
  { db with
      claims := db.claims ++ [⟨db.next_claim_id, qid, uid⟩],
      next_claim_id := db.next_claim_id + 1 }

/-- Page size of `/quest list` (`quests_per_page = 5` in bot.py). -/
def quests_per_page : Nat := 5

/-- `total_pages = (total_quests + quests_per_page - 1) // quests_per_page`. -/
def totalPages (db : DB) : Nat :=
  (db.quests.length + quests_per_page - 1) / quests_per_page

/-- `offset = (page - 1) * quests_per_page` (for a validated page). -/
def pageOffset (page : Int) : Nat := (page - 1).toNat * quests_per_page

/-- The possible outcomes of the `quest_list` handler. -/
inductive ListReply where
  | invalidPage : ListReply
  | outOfRange : Int → Nat → ListReply
  | noQuests : ListReply
  | pageContent : List Quest → Int → Nat → ListReply
  deriving DecidableEq

/-- Rows sorted by `created_at` descending (what `ORDER BY created_at DESC`
guarantees — nothing more). -/
def sortedByCreatedAtDesc (l : List Quest) : Prop :=
  l.Pairwise (fun a b => b.created_at ≤ a.created_at)

instance (l : List Quest) : Decidable (sortedByCreatedAtDesc l) :=
  List.instDecidablePairwise l

/-- The rows `SELECT ... ORDER BY created_at DESC LIMIT 5 OFFSET off` may
return: a page window of some permutation of the table that is sorted by
`created_at` descending.  The query names no secondary sort key, so the
order of rows with equal timestamps is not determined. -/
def questPageRows (db : DB) (off : Nat) (rows : List Quest) : Prop :=
  ∃ ordered : List Quest, db.quests.Perm ordered ∧ sortedByCreatedAtDesc ordered ∧
    rows = (ordered.drop off).take quests_per_page

/-- Handler of `/quest list` (bot.py `quest_list`) as a relation between the
store state, the requested page and the outcome (the row order within a page
is nondeterministic, see `questPageRows`).  Mirrors the source's order of
checks: page validation, then the out-of-range check against the count, then
the page query, then the empty check. -/
def quest_list_rel (db : DB) (page : Int) (r : ListReply) : Prop :=
  if page < 1 then r = ListReply.invalidPage
  else if (totalPages db : Int) < page ∧ 0 < db.quests.length then
    r = ListReply.outOfRange page (totalPages db)
  else ∃ rows, questPageRows db (pageOffset page) rows ∧
    ((rows = [] ∧ r = ListReply.noQuests) ∨
     (rows ≠ [] ∧ r = ListReply.pageContent rows page (totalPages db)))

/-- Display-name resolution of `client.fetch_user`: `none` models
`discord.NotFound`, in which case the raw id is shown. -/
def creatorName (resolve : String → Option String) (cid : String) : String :=
  match resolve cid with
  | some n => n
  | none => "User ID " ++ cid ++ " (not found)"

/-- One quest entry of the `/quest list` reply body. -/
def renderQuest (resolve : String → Option String) (q : Quest) : String :=
  "**Quest ID: " ++ toString q.id ++ " | " ++ q.title ++ "**\n" ++
  "Description: " ++ q.description ++ "\n" ++
  "Created by: " ++ creatorName resolve q.creator_id ++ "\n" ++
  "Reward: " ++ toString q.points ++ " points\n" ++
  "Posted on: " ++ toString q.created_at ++ "\n\n"

/-- The reply text of a `quest_list` outcome. -/
def renderListReply (resolve : String → Option String) : ListReply → String
  | ListReply.invalidPage => "Woof! Page number must be 1 or higher. Try again!"
  | ListReply.outOfRange p tp =>
      "Woof! Page " ++ toString p ++ " doesn’t exist. There are only " ++
        toString tp ++ " pages!"
  | ListReply.noQuests => "Woof! No quests found. Create one with /quest create!"
  | ListReply.pageContent rows p tp =>
      (rows.foldl (fun acc q => acc ++ renderQuest resolve q)
        ("Woof! Here are the quests I found (Page " ++ toString p ++ "/" ++
          toString tp ++ "):\n\n")) ++
      (if 1 < tp then
        "To see more, use /quest_list page:<number> (e.g., /quest_list page:" ++
          toString (if p < (tp : Int) then p + 1 else 1) ++ ")"
      else "")

/-- First occurrence of the separator `s0 :: sr` in a character list:
`some (pre, post)` splits the list around it.  Keeping the separator's head
separate makes it visibly non-empty, as in every call site of bot.py. -/
def splitFirst (s0 : Char) (sr : List Char) : List Char → Option (List Char × List Char)
  | [] => none
  | c :: cs =>
    if (s0 :: sr).isPrefixOf (c :: cs) then some ([], cs.drop sr.length)
    else
      match splitFirst s0 sr cs with
      | none => none
      | some (pre, post) => some (c :: pre, post)

/-- Fuelled worker of `splitOnL`; each successful split shortens the rest by
at least one character, so `l.length` fuel is always enough. -/
def splitOnAux (s0 : Char) (sr : List Char) : Nat → List Char → List (List Char)
  | 0, l => [l]
  | fuel + 1, l =>
    match splitFirst s0 sr l with
    | none => [l]
    | some (pre, post) => pre :: splitOnAux s0 sr fuel post

/-- Python `str.split(sep)` for a non-empty separator `s0 :: sr`: leftmost
occurrences, empty pieces kept, `[""]` on the empty string. -/
def splitOnL (s0 : Char) (sr : List Char) (l : List Char) : List (List Char) :=
  splitOnAux s0 sr l.length l

/-- Python `str.replace(pattern, "")`: every non-overlapping occurrence of
the pattern is removed, scanning left to right (with an empty pattern the
string is returned unchanged, as in Python). -/
def removeAll (pat l : List Char) : List Char :=
  match pat with
  | [] => l
  | p0 :: pr => (splitOnL p0 pr l).flatten

/-- Python `str.strip()`: leading and trailing whitespace removed. -/
def pyStrip (l : List Char) : List Char :=
  ((l.dropWhile Char.isWhitespace).reverse.dropWhile Char.isWhitespace).reverse

/-- Python `str.endswith(suffix)`. -/
def pyEndsWith (suffix l : List Char) : Bool := suffix.isSuffixOf l

/-- Python `str.rsplit(" ", 1)[0]`: everything before the last space, the
whole string when it has no space. -/
def pyRsplitFirst (l : List Char) : List Char :=
  let parts := splitOnL ' ' [] l
  if parts.length ≤ 1 then l else List.intercalate [' '] parts.dropLast

/-- The title used when the sentence list is empty
(`"A Mysterious Quest"` in bot.py — see `suggest_empty_text_output` for why
this branch cannot fire). -/
def placeholderTitle : String := "A Mysterious Quest"

/-- The description used when only one sentence was generated. -/
def fallbackDescription : String := "Embark on a thrilling adventure!"

/-- `title = sentences[0] if sentences else "A Mysterious Quest"`:
the first sentence, or the placeholder when the list is empty. -/
def suggest_title_raw (sentences : List (List Char)) : List Char :=
  sentences.headD placeholderTitle.data

/-- `description = ". ".join(sentences[1:]) if len(sentences) > 1 else
"Embark on a thrilling adventure!"`. -/
def suggest_descr_raw (sentences : List (List Char)) : List Char :=
  if 1 < sentences.length then List.intercalate ['.', ' '] (sentences.drop 1)
  else fallbackDescription.data

/-- `if not description.endswith("."): description =
description.rsplit(" ", 1)[0] + "."` applied to `suggest_descr_raw`. -/
def suggest_descr_fixed (sentences : List (List Char)) : List Char :=
  let d := suggest_descr_raw sentences
  if pyEndsWith ['.'] d then d else pyRsplitFirst d ++ ['.']

/-- The deterministic post-processing of `quest_suggest` on the cleaned
generated text (bot.py lines 255-263): split on `". "`, first sentence as
title, rest re-joined as description, a period appended after dropping the
last word when the description does not end in one, then both fields
truncated (title to 50, description to 200 code points).  Note the
truncation happens AFTER the period fix-up. -/
def suggest_post (cleaned : List Char) : List Char × List Char :=
  let sentences := splitOnL '.' [' '] cleaned
  ((suggest_title_raw sentences).take 50, (suggest_descr_fixed sentences).take 200)

/-- The prompt template of `quest_suggest`:
`f"A \x7btheme\x7d quest: In a world of \x7btheme\x7d, a hero must "`. -/
def suggest_prompt (theme : String) : String :=
  "A " ++ theme ++ " quest: In a world of " ++ theme ++ ", a hero must "

/-- Title/description extraction of `quest_suggest` from the raw generated
text: the prompt is removed (`generated_text.replace(prompt, "")`), the rest
stripped, then post-processed by `suggest_post`. -/
def quest_suggest_extract (theme generated : String) : String × String :=
  let cleaned := pyStrip (removeAll (suggest_prompt theme).data generated.data)
  (String.mk (suggest_post cleaned).1, String.mk (suggest_post cleaned).2)

/-- Post-processing as §4.2 of the spec words it, for comparison with
`suggest_post`: truncate the description to 200 characters FIRST, and only
then, if the truncated description does not end in a period, trim back to
the last whole word and append one. -/
def suggest_post_spec (cleaned : List Char) : List Char × List Char :=
  let sentences := splitOnL '.' [' '] cleaned
  let descr := (suggest_descr_raw sentences).take 200
  let descr :=
    if pyEndsWith ['.'] descr then descr else pyRsplitFirst descr ++ ['.']
  ((suggest_title_raw sentences).take 50, descr)

/-- Quest ids are bounded by the store's key counter. -/
def QuestIdsBounded (db : DB) : Prop := ∀ q ∈ db.quests, q.id < db.next_quest_id

/-- Distinct rows of the `quests` table carry distinct generated ids. -/
def QuestIdsDistinct (db : DB) : Prop :=
  db.quests.Pairwise (fun a b => a.id ≠ b.id)

/-- Every claim row references an existing quest whose creator is not the
claimant (what the claim handler's checks guarantee at insert time). -/
def ClaimsConsistent (db : DB) : Prop :=
  ∀ c ∈ db.claims, ∃ q ∈ db.quests, q.id = c.quest_id ∧ q.creator_id ≠ c.user_id

/-- States reachable from the empty store by running the two mutating
handlers (`quest_list` and `quest_suggest` never change the store). -/
inductive Reachable : DB → Prop where
  | init : Reachable emptyDB
  | create (db : DB) (now : Nat) (t d : String) (p : Int) (uid : String) :
      Reachable db → Reachable (quest_create db now t d p uid).2.1
  | claim (db : DB) (qid : Nat) (uid : String) :
      Reachable db → Reachable (quest_claim db qid uid).2.1

/-- A store with one quest (id 0) created by `"creator"` and no claims yet:
the initial state of the two concurrent claim attempts of
`quest_claim_check_then_insert_race`. -/
def raceDB : DB := ⟨[⟨0, "T", "D", "creator", 50, 0⟩], [], 1, 0⟩

/-- Two quests persisted with the same `created_at` timestamp but distinct
store-assigned ids (qA inserted first). -/
def qA : Quest := ⟨0, "A", "dA", "u1", 10, 100⟩

/-- See `qA`: the second quest of the tied pair. -/
def qB : Quest := ⟨1, "B", "dB", "u2", 20, 100⟩

/-- A store holding the two tied quests, `qA` inserted before `qB`. -/
def tieDB : DB := ⟨[qA, qB], [], 2, 0⟩

/-- A store holding exactly one quest, for the list witnesses. -/
def oneDB : DB := ⟨[⟨0, "Q", "d", "u1", 10, 100⟩], [], 1, 0⟩

/-- 197 letters, the bulk of the overlong generated description of
`suggest_description_may_lose_period`. -/
def aRun : List Char := List.replicate 197 'a'

/-- Generated text whose second sentence is 201 characters ending in a
period: the 200-character truncation of `quest_suggest` cuts that period
off after the fix-up already ran. -/
def genC7 : String := String.mk ('T' :: '.' :: ' ' :: (aRun ++ [' ', 'b', 'b', '.']))

/-- The state after `/quest create "T" "D" 50` by user `"u1"` on an empty
store. -/
def db1c : DB := (quest_create emptyDB 5 "T" "D" 50 "u1").2.1

/-- The state after user `"u2"` additionally claimed quest 0 of `db1c`. -/
def db2c : DB := (quest_claim db1c 0 "u2").2.1

/-- Claim C1: for every points value outside [1,1000] the create handler
replies with the validation message, leaves the store untouched and issues
no store write at all. -/
theorem quest_create_rejects_out_of_range (db : DB) (now : Nat) (t d : String)
    (p : Int) (uid : String) (h : p < 1 ∨ 1000 < p) :
    quest_create db now t d p uid = (msgPointsInvalid, db, []) := by
  unfold quest_create
  rw [if_pos h]

/-- Witness for `quest_create_rejects_out_of_range` at points 0. -/
theorem quest_create_rejects_out_of_range_witness :
    quest_create emptyDB 0 "T" "D" 0 "u1" = (msgPointsInvalid, emptyDB, []) :=
  quest_create_rejects_out_of_range emptyDB 0 "T" "D" 0 "u1" (Or.inl (by decide))

/-- Claim C2: whenever the looked-up quest's creator equals the claiming
user, `quest_claim` replies with the self-claim message, changes nothing
(in particular the claims table) and issues no insert. -/
theorem quest_claim_self_rejected (db : DB) (qid : Nat) (uid : String) (q : Quest)
    (hf : findQuest db qid = some q) (hcr : q.creator_id = uid) :
    quest_claim db qid uid = (msgSelfClaim, db, []) := by
  unfold quest_claim
  rw [hf]
  simp [hcr]

/-- Witness for `quest_claim_self_rejected`: the creator of the quest in
`db1c` tries to claim it. -/
theorem quest_claim_self_rejected_witness :
    quest_claim db1c 0 "u1" = (msgSelfClaim, db1c, []) :=
  quest_claim_self_rejected db1c 0 "u1" ⟨0, "T", "D", "u1", 50, 5⟩ (by decide) rfl

/-- Counterexample to claim C6: `/quest create` with empty title AND empty
description and in-range points does persist a quest (and issues the
insert), instead of failing with a validation error. -/
theorem quest_create_empty_title_persists :
    (quest_create emptyDB 0 "" "" 50 "u1").2.1.quests = [⟨0, "", "", "u1", 50, 0⟩] ∧
    (quest_create emptyDB 0 "" "" 50 "u1").2.2 = [StoreOp.insertQuest "" "" "u1" 50] ∧
    (quest_create emptyDB 0 "" "" 50 "u1").1 ≠ msgPointsInvalid := by
  decide

/-- Claim C6 as amended: the create handler validates only the points
range; any title and description — empty ones included — are persisted
unchanged whenever the points are in [1,1000]. -/
theorem quest_create_validates_points_only (db : DB) (now : Nat) (t d : String)
    (p : Int) (uid : String) (h1 : 1 ≤ p) (h2 : p ≤ 1000) :
    (quest_create db now t d p uid).2.1.quests =
      db.quests ++ [⟨db.next_quest_id, t, d, uid, p, now⟩] ∧
    (quest_create db now t d p uid).2.2 = [StoreOp.insertQuest t d uid p] := by
  unfold quest_create
  rw [if_neg (by omega)]
  exact ⟨rfl, rfl⟩

/-- Witness for `quest_create_validates_points_only` at empty title and
description, points 50. -/
theorem quest_create_validates_points_only_witness :
    (quest_create emptyDB 0 "" "" 50 "u1").2.1.quests =
      emptyDB.quests ++ [⟨emptyDB.next_quest_id, "", "", "u1", 50, 0⟩] ∧
    (quest_create emptyDB 0 "" "" 50 "u1").2.2 = [StoreOp.insertQuest "" "" "u1" 50] :=
  quest_create_validates_points_only emptyDB 0 "" "" 50 "u1" (by decide) (by decide)

/-- Claim C8 (code bug): on generated text that is exactly the prompt (so
the cleaned text is empty), the handler does reply without error, but with
title `""` — the `"A Mysterious Quest"` placeholder branch is unreachable,
since Python's `split` never returns an empty list — and with the fallback
description mutilated to `"Embark on a thrilling."` by the
append-a-period fix-up, not the fixed fallback sentence. -/
theorem suggest_empty_text_output :
    quest_suggest_extract "fantasy" (suggest_prompt "fantasy") =
      ("", "Embark on a thrilling.") ∧
    ("" : String) ≠ placeholderTitle ∧
    ("Embark on a thrilling." : String) ≠ fallbackDescription := by
  decide

/-- Claim C9 (code bug): `quest_claim` is exactly a check-then-insert
sequence (first conjunct: its state change is `claimInsert` gated by the
read-only `claimCheck`, with no uniqueness constraint in between), and the
interleaving check₁ check₂ insert₁ insert₂ of two concurrent claims for the
same (quest 0, "u2") pair lets both checks pass against the initial store
and both inserts succeed, leaving TWO claim rows for the pair. -/
theorem quest_claim_check_then_insert_race :
    (∀ (db : DB) (qid : Nat) (uid : String),
      (quest_claim db qid uid).2.1 =
        if claimCheck db qid uid then claimInsert db qid uid else db) ∧
    claimCheck raceDB 0 "u2" = true ∧
    (claimInsert (claimInsert raceDB 0 "u2") 0 "u2").claims.countP
      (fun c => c.quest_id == 0 && c.user_id == "u2") = 2 := by
  refine ⟨fun db qid uid => ?_, by decide, by decide⟩
  unfold quest_claim claimCheck claimInsert
  cases h : findQuest db qid with
  | none => simp
  | some q =>
    by_cases h1 : q.creator_id == uid
    · simp [h1]
    · by_cases h2 : hasClaim db qid uid
      · simp [h1, h2]
      · simp [h1, h2]

/-- The single quest of `oneDB` shows up as page 1 of 1. -/
lemma oneDB_page1 : quest_list_rel oneDB 1
    (ListReply.pageContent [⟨0, "Q", "d", "u1", 10, 100⟩] 1 1) := by
  unfold quest_list_rel
  rw [if_neg (by decide), if_neg (by decide)]
  exact ⟨[⟨0, "Q", "d", "u1", 10, 100⟩],
    ⟨[⟨0, "Q", "d", "u1", 10, 100⟩], List.Perm.refl _, by decide, by decide⟩,
    Or.inr ⟨by decide, by decide⟩⟩

/-- Page 2 of the one-quest store is out of range. -/
lemma oneDB_page2 : quest_list_rel oneDB 2 (ListReply.outOfRange 2 1) := by
  unfold quest_list_rel
  rw [if_neg (by decide), if_pos (by decide)]
  decide

/-- Claim C5: in every outcome of the list handler, a page below 1 is the
validation reply; any page on a store with zero quests is the
empty-but-valid no-quests reply (never an error); and a page beyond the
available pages of a non-empty store is the out-of-range reply, whose
rendered message states the valid page count. -/
theorem quest_list_error_paths (db : DB) (page : Int) (r : ListReply)
    (h : quest_list_rel db page r) :
    (page < 1 → r = ListReply.invalidPage) ∧
    (1 ≤ page → db.quests.length = 0 → r = ListReply.noQuests) ∧
    (1 ≤ page → (totalPages db : Int) < page → 0 < db.quests.length →
      r = ListReply.outOfRange page (totalPages db) ∧
      ∀ resolve : String → Option String, renderListReply resolve r =
        "Woof! Page " ++ toString page ++ " doesn’t exist. There are only " ++
          toString (totalPages db) ++ " pages!") := by
  unfold quest_list_rel at h
  by_cases hp : page < 1
  · rw [if_pos hp] at h
    exact ⟨fun _ => h, fun h1 => absurd h1 (by omega), fun h1 => absurd h1 (by omega)⟩
  · rw [if_neg hp] at h
    by_cases ho : (totalPages db : Int) < page ∧ 0 < db.quests.length
    · rw [if_pos ho] at h
      exact ⟨fun hc => absurd hc hp, fun _ hz => absurd ho.2 (by omega),
        fun _ _ _ => ⟨h, fun resolve => by rw [h]; rfl⟩⟩
    · rw [if_neg ho] at h
      obtain ⟨rows, ⟨ordered, hperm, hsort, hrows⟩, hd⟩ := h
      refine ⟨fun hc => absurd hc hp, ?_, fun h1 h2 h3 => absurd ⟨h2, h3⟩ ho⟩
      intro _ hz
      have hq : db.quests = [] := List.length_eq_zero.mp hz
      have hord : ordered = [] := by
        rw [hq] at hperm
        exact hperm.symm.eq_nil
      have hre : rows = [] := by rw [hrows, hord]; simp
      rcases hd with ⟨_, hr⟩ | ⟨hne, _⟩
      · exact hr
      · exact absurd hre hne

/-- Witness for `quest_list_error_paths`: on the one-quest store, page 2 is
reported out of range and the rendered reply names the single valid page. -/
theorem quest_list_error_paths_witness :
    ListReply.outOfRange 2 1 = ListReply.outOfRange 2 (totalPages oneDB) ∧
    renderListReply (fun _ => none) (ListReply.outOfRange 2 1) =
      "Woof! Page " ++ toString (2 : Int) ++ " doesn’t exist. There are only " ++
        toString (totalPages oneDB) ++ " pages!" := by
  have h := (quest_list_error_paths oneDB 2 (ListReply.outOfRange 2 1) oneDB_page2).2.2
    (by decide) (by decide) (by decide)
  exact ⟨h.1, h.2 (fun _ => none)⟩

/-- Claim C10: every rendered page of the list handler holds at most 5
quests, the reported page total is the ceiling of the quest count over 5
(characterised as the least number of 5-quest pages covering the count),
and the rows are the window at offset (page-1)*5 of the ordered quests. -/
theorem quest_list_pagination (db : DB) (page : Int) (rows : List Quest)
    (p : Int) (tp : Nat)
    (h : quest_list_rel db page (ListReply.pageContent rows p tp)) :
    rows.length ≤ 5 ∧
    db.quests.length ≤ 5 * tp ∧
    (∀ m : Nat, db.quests.length ≤ 5 * m → tp ≤ m) ∧
    ∃ ordered : List Quest, db.quests.Perm ordered ∧ sortedByCreatedAtDesc ordered ∧
      rows = (ordered.drop ((page - 1).toNat * 5)).take 5 := by
  unfold quest_list_rel at h
  by_cases hp : page < 1
  · rw [if_pos hp] at h
    exact absurd h (by simp)
  · rw [if_neg hp] at h
    by_cases ho : (totalPages db : Int) < page ∧ 0 < db.quests.length
    · rw [if_pos ho] at h
      exact absurd h (by simp)
    · rw [if_neg ho] at h
      obtain ⟨rows', ⟨ordered, hperm, hsort, hrows⟩, hd⟩ := h
      rcases hd with ⟨_, hr⟩ | ⟨hne, hr⟩
      · exact absurd hr (by simp)
      · injection hr with h1 h2 h3
        subst h1
        subst h3
        refine ⟨?_, ?_, ?_, ordered, hperm, hsort, hrows⟩
        · rw [hrows]
          simp [quests_per_page, List.length_take]
        · unfold totalPages quests_per_page
          omega
        · unfold totalPages quests_per_page
          omega

/-- Witness for `quest_list_pagination`: the single page of the one-quest
store holds at most 5 quests. -/
theorem quest_list_pagination_witness :
    [(⟨0, "Q", "d", "u1", 10, 100⟩ : Quest)].length ≤ 5 :=
  (quest_list_pagination oneDB 1 [⟨0, "Q", "d", "u1", 10, 100⟩] 1 1 oneDB_page1).1

/-- Counterexample to claim C4: on a store with two quests sharing a
`created_at` timestamp, BOTH relative orders are valid outcomes of the
page query — `ORDER BY created_at DESC` carries no secondary sort key, so
ties are not broken by insertion order (nor by anything else) in every
page enumeration. -/
theorem quest_list_tie_order_not_determined :
    quest_list_rel tieDB 1 (ListReply.pageContent [qA, qB] 1 1) ∧
    quest_list_rel tieDB 1 (ListReply.pageContent [qB, qA] 1 1) ∧
    qA.created_at = qB.created_at ∧ qA.id ≠ qB.id ∧ qA ≠ qB := by
  refine ⟨?_, ?_, by decide, by decide, by decide⟩
  · unfold quest_list_rel
    rw [if_neg (by decide), if_neg (by decide)]
    exact ⟨[qA, qB], ⟨[qA, qB], List.Perm.refl _, by decide, by decide⟩,
      Or.inr ⟨by decide, by decide⟩⟩
  · unfold quest_list_rel
    rw [if_neg (by decide), if_neg (by decide)]
    exact ⟨[qB, qA], ⟨[qB, qA], List.Perm.swap qB qA [], by decide, by decide⟩,
      Or.inr ⟨by decide, by decide⟩⟩

/-- Claim C4 as amended: every rendered page is sorted by `created_at`
descending — but the order among equal timestamps is not determined (see
`quest_list_tie_order_not_determined`). -/
theorem quest_list_sorted_desc (db : DB) (page : Int) (rows : List Quest)
    (p : Int) (tp : Nat)
    (h : quest_list_rel db page (ListReply.pageContent rows p tp)) :
    sortedByCreatedAtDesc rows := by
  unfold quest_list_rel at h
  by_cases hp : page < 1
  · rw [if_pos hp] at h
    exact absurd h (by simp)
  · rw [if_neg hp] at h
    by_cases ho : (totalPages db : Int) < page ∧ 0 < db.quests.length
    · rw [if_pos ho] at h
      exact absurd h (by simp)
    · rw [if_neg ho] at h
      obtain ⟨rows', ⟨ordered, hperm, hsort, hrows⟩, hd⟩ := h
      rcases hd with ⟨_, hr⟩ | ⟨hne, hr⟩
      · exact absurd hr (by simp)
      · injection hr with h1 h2 h3
        subst h1
        rw [hrows]
        exact List.Pairwise.sublist
          ((List.take_sublist _ _).trans (List.drop_sublist _ _)) hsort

/-- Witness for `quest_list_sorted_desc` on the one-quest store. -/
theorem quest_list_sorted_desc_witness :
    sortedByCreatedAtDesc [⟨0, "Q", "d", "u1", 10, 100⟩] :=
  quest_list_sorted_desc oneDB 1 [⟨0, "Q", "d", "u1", 10, 100⟩] 1 1 oneDB_page1

/-- Two members of an id-distinct list with the same id are one element. -/
lemma pairwise_id_inj : ∀ {l : List Quest},
    l.Pairwise (fun a b => a.id ≠ b.id) →
    ∀ {a b : Quest}, a ∈ l → b ∈ l → a.id = b.id → a = b := by
  intro l hl
  induction hl with
  | nil =>
    intro a b ha
    simp at ha
  | cons hhead _ ih =>
    intro a b ha hb heq
    rcases List.mem_cons.mp ha with rfl | ha' <;>
      rcases List.mem_cons.mp hb with rfl | hb'
    · rfl
    · exact absurd heq (hhead b hb')
    · exact absurd heq.symm (hhead a ha')
    · exact ih ha' hb' heq

/-- The handler steps preserve id uniqueness and claim consistency: in any
reachable store state, quest ids are bounded and distinct, and every claim
row points at an existing quest the claimant did not create. -/
lemma reachable_invariant {db : DB} (h : Reachable db) :
    QuestIdsBounded db ∧ QuestIdsDistinct db ∧ ClaimsConsistent db := by
  induction h with
  | init =>
    refine ⟨?_, ?_, ?_⟩ <;>
      simp [QuestIdsBounded, QuestIdsDistinct, ClaimsConsistent, emptyDB]
  | create db now t d p uid hr ih =>
    obtain ⟨hb, hd, hc⟩ := ih
    by_cases hp : p < 1 ∨ p > 1000
    · unfold quest_create
      rw [if_pos hp]
      exact ⟨hb, hd, hc⟩
    · unfold quest_create
      rw [if_neg hp]
      refine ⟨?_, ?_, ?_⟩
      · intro q hq
        rcases List.mem_append.mp hq with hold | hnew
        · exact Nat.lt_succ_of_lt (hb q hold)
        · have : q = ⟨db.next_quest_id, t, d, uid, p, now⟩ := by simpa using hnew
          rw [this]
          exact Nat.lt_succ_self _
      · rw [QuestIdsDistinct, List.pairwise_append]
        refine ⟨hd, by simp, ?_⟩
        intro a ha b hbm
        have : b = ⟨db.next_quest_id, t, d, uid, p, now⟩ := by simpa using hbm
        rw [this]
        exact Nat.ne_of_lt (hb a ha)
      · intro c hcm
        obtain ⟨q, hq, h1, h2⟩ := hc c hcm
        exact ⟨q, List.mem_append_left _ hq, h1, h2⟩
  | claim db qid uid hr ih =>
    obtain ⟨hb, hd, hc⟩ := ih
    unfold quest_claim
    cases hf : findQuest db qid with
    | none => exact ⟨hb, hd, hc⟩
    | some q =>
      by_cases h1 : q.creator_id == uid
      · simp only [h1, if_true]
        exact ⟨hb, hd, hc⟩
      · by_cases h2 : hasClaim db qid uid
        · simp only [h1, h2, Bool.false_eq_true, if_false, if_true]
          exact ⟨hb, hd, hc⟩
        · simp only [h1, h2, Bool.false_eq_true, if_false]
          refine ⟨hb, hd, ?_⟩
          intro c hcm
          rcases List.mem_append.mp hcm with hold | hnew
          · exact hc c hold
          · have hcv : c = ⟨db.next_claim_id, qid, uid⟩ := by simpa using hnew
            have hqmem : q ∈ db.quests := List.mem_of_find?_eq_some hf
            have hqid : q.id = qid := by
              have := List.find?_some hf
              simpa using this
            refine ⟨q, hqmem, by rw [hqid, hcv], ?_⟩
            rw [hcv]
            intro hcr
            exact h1 (by simp [hcr])

/-- Claim C3: in any reachable store state, when a claim row already exists
for the (quest, user) pair, `quest_claim` replies with the duplicate-claim
message, changes nothing and issues no insert — the at-most-one-claim-per-
pair invariant is preserved. -/
theorem quest_claim_duplicate_rejected (db : DB) (qid : Nat) (uid : String)
    (hr : Reachable db) (hcl : hasClaim db qid uid = true) :
    (quest_claim db qid uid).2.1 = db ∧
    (quest_claim db qid uid).2.2 = [] ∧
    ∃ t, (quest_claim db qid uid).1 = msgDuplicateClaim t := by
  obtain ⟨hb, hd, hc⟩ := reachable_invariant hr
  obtain ⟨c, hcmem, hcp⟩ := List.any_eq_true.mp hcl
  obtain ⟨hcq, hcu⟩ : c.quest_id = qid ∧ c.user_id = uid := by simpa using hcp
  obtain ⟨q, hqmem, hqid, hqcr⟩ := hc c hcmem
  have hfs : (db.quests.find? (fun x => x.id == qid)).isSome := by
    rw [List.find?_isSome]
    exact ⟨q, hqmem, by simp [hqid, hcq]⟩
  obtain ⟨q', hq'⟩ := Option.isSome_iff_exists.mp hfs
  have hq'mem : q' ∈ db.quests := List.mem_of_find?_eq_some hq'
  have hq'id : q'.id = qid := by
    have := List.find?_some hq'
    simpa using this
  have hqq : q' = q := pairwise_id_inj hd hq'mem hqmem (by rw [hq'id, hqid, hcq])
  have hne : (q'.creator_id == uid) = false := by
    rw [hqq]
    simp only [beq_eq_false_iff_ne, ne_eq]
    rw [← hcu]
    exact hqcr
  unfold quest_claim
  rw [show findQuest db qid = some q' from hq']
  simp only [hne, Bool.false_eq_true, if_false, hcl, if_true]
  refine ⟨by trivial, by trivial, q'.title, by trivial⟩

/-- Witness for `quest_claim_duplicate_rejected`: `"u2"` claims quest 0 of
`db2c` a second time. -/
theorem quest_claim_duplicate_rejected_witness :
    (quest_claim db2c 0 "u2").2.1 = db2c ∧
    (quest_claim db2c 0 "u2").2.2 = [] ∧
    ∃ t, (quest_claim db2c 0 "u2").1 = msgDuplicateClaim t :=
  quest_claim_duplicate_rejected db2c 0 "u2"
    (Reachable.claim db1c 0 "u2" (Reachable.create emptyDB 5 "T" "D" 50 "u1" Reachable.init))
    (by decide)

/-- Appending a period makes the string end in one. -/
lemma pyEndsWith_concat_dot (x : List Char) : pyEndsWith ['.'] (x ++ ['.']) = true := by
  simp [pyEndsWith, List.isSuffixOf, List.reverse_append, List.isPrefixOf]

/-- The fixed-up description of `quest_suggest` always ends in a period —
BEFORE the final truncation runs. -/
lemma suggest_descr_fixed_endsWith (sentences : List (List Char)) :
    pyEndsWith ['.'] (suggest_descr_fixed sentences) = true := by
  simp only [suggest_descr_fixed]
  split
  next h => exact h
  next h => exact pyEndsWith_concat_dot _

/-- Claim C7 as amended: the post-processing is deterministic — split on
". ", title is the first sentence truncated to 50 code points, both fields
are within their caps, and the delivered description is the 200-point
truncation of a string that ends in a period (the period fix-up runs
BEFORE the truncation, so the truncation can cut the final period off —
see `suggest_description_may_lose_period`). -/
theorem suggest_post_structure (cleaned : List Char) :
    (suggest_post cleaned).1 =
      (suggest_title_raw (splitOnL '.' [' '] cleaned)).take 50 ∧
    (suggest_post cleaned).1.length ≤ 50 ∧
    (suggest_post cleaned).2.length ≤ 200 ∧
    pyEndsWith ['.'] (suggest_descr_fixed (splitOnL '.' [' '] cleaned)) = true ∧
    (suggest_post cleaned).2 = (suggest_descr_fixed (splitOnL '.' [' '] cleaned)).take 200 := by
  refine ⟨rfl, ?_, ?_, suggest_descr_fixed_endsWith _, rfl⟩
  · show ((suggest_title_raw (splitOnL '.' [' '] cleaned)).take 50).length ≤ 50
    simp [List.length_take]
  · show ((suggest_descr_fixed (splitOnL '.' [' '] cleaned)).take 200).length ≤ 200
    simp [List.length_take]

set_option maxRecDepth 100000 in
/-- Counterexample to claim C7: on `genC7` the delivered description ends
in a letter, not a period (its pre-truncation form was 201 points long, so
the truncation to 200 cut the period off), and differs from what the
spec's order of operations — truncate first, then fix the period — yields. -/
theorem suggest_description_may_lose_period :
    ((quest_suggest_extract "x" genC7).2).data.getLast? = some 'b' ∧
    ((quest_suggest_extract "x" genC7).2).data.length = 200 ∧
    ((quest_suggest_extract "x" genC7).2).data ≠ (suggest_post_spec genC7.data).2 ∧
    (suggest_post_spec genC7.data).2.getLast? = some '.' := by
  decide

end GraphiteQuest
